import Mathlib

/-!
Verification development for the HealthGuide fever-triage backend.

The definitions below are a shallow embedding of the Python sources:
  - `backend/app/fever_diseases.py` (disease pattern scorer),
  - `backend/app/main.py` (triage orchestration and summary endpoint),
  - `backend/app/database.py` (conversation persistence).
Parts of the repository that are imported by `main.py` but whose sources are
not available (`app/models.py`, `app/red_flags.py`, `app/llm_service.py`) are
modelled from the system specification; each such definition carries a doc
comment starting with `Modelled from the spec:`.

Machine floats of the Python code are modelled with exact rationals; for every
value reachable in the claims below, Python's float rounding agrees with the
rational computation (no round-half-to-even tie is reachable: all reachable
confidences are fractions with denominator 9, 10 or 12).
-/

namespace HealthGuide

/-- Python's `needle in haystack` substring test, over lists of characters:
`needle` occurs contiguously inside `haystack`. -/
def listIn (needle : List Char) : List Char → Bool
  | [] => needle.isEmpty
  | c :: rest => needle.isPrefixOf (c :: rest) || listIn needle rest

/-- Python's `needle in haystack` on strings. -/
def strIn (needle haystack : String) : Bool :=
  listIn needle.data haystack.data

/-- Python's `str.lower()`: character-wise lowercasing (the texts involved
are ASCII, where Python's and Lean's mappings agree). -/
def lowerStr (s : String) : String := ⟨s.data.map Char.toLower⟩

/-- Python's `str.upper()`: character-wise uppercasing. -/
def upperStr (s : String) : String := ⟨s.data.map Char.toUpper⟩

/-! ## Disease pattern catalog (`fever_diseases.py`, `FEVER_PATTERNS`) -/

/-- One entry of the static `FEVER_PATTERNS` catalog. -/
structure FeverPattern where
  name : String
  keywords : List String
  duration : String
  symptoms : List String
  alert : String
  severity : String
deriving Repr, DecidableEq

def denguePattern : FeverPattern :=
  { name := "dengue"
    keywords := ["rash", "joint pain", "eye pain", "bleeding gums", "platelet", "petechiae", "bleeding"]
    duration := "5-7 days"
    symptoms := ["high fever", "severe headache", "pain behind eyes", "muscle pain", "bone pain"]
    alert := "Monitor platelet count, watch for bleeding signs. Seek medical attention if bleeding occurs."
    severity := "high" }

def malariaPattern : FeverPattern :=
  { name := "malaria"
    keywords := ["chills", "sweating", "cyclic fever", "shivering", "rigor"]
    duration := "2-3 days cycles"
    symptoms := ["fever with chills", "headache", "nausea", "muscle pain", "fatigue"]
    alert := "Requires antimalarial treatment within 48 hours. Can be life-threatening if untreated."
    severity := "high" }

def typhoidPattern : FeverPattern :=
  { name := "typhoid"
    keywords := ["step-ladder fever", "rose spots", "abdominal pain", "constipation", "diarrhea"]
    duration := "7-14 days"
    symptoms := ["prolonged fever", "weakness", "stomach pain", "headache", "loss of appetite"]
    alert := "Requires antibiotic treatment. Can cause complications if untreated."
    severity := "high" }

def viralPattern : FeverPattern :=
  { name := "viral"
    keywords := ["cold", "cough", "sore throat", "runny nose", "body ache"]
    duration := "3-5 days"
    symptoms := ["mild fever", "body ache", "fatigue", "headache"]
    alert := "Usually self-limiting, supportive care recommended. Rest and hydration."
    severity := "low" }

def fluPattern : FeverPattern :=
  { name := "flu"
    keywords := ["influenza", "body ache", "fatigue", "cough", "sore throat"]
    duration := "5-7 days"
    symptoms := ["fever", "chills", "body ache", "fatigue", "cough"]
    alert := "Rest, hydration, and symptomatic treatment. Antiviral medication may help if started early."
    severity := "medium" }

def covidPattern : FeverPattern :=
  { name := "covid"
    keywords := ["covid", "coronavirus", "loss of taste", "loss of smell", "shortness of breath"]
    duration := "7-14 days"
    symptoms := ["fever", "cough", "shortness of breath", "fatigue", "loss of taste or smell"]
    alert := "Isolate immediately. Monitor oxygen levels. Seek medical attention if breathing difficulties occur."
    severity := "high" }

/-- The `FEVER_PATTERNS` dict, in its (preserved) insertion order. -/
def FEVER_PATTERNS : List FeverPattern :=
  [denguePattern, malariaPattern, typhoidPattern, viralPattern, fluPattern, covidPattern]

/-! ## Disease scoring (`fever_diseases.py`, `identify_fever_type`) -/

/-- `+1` per catalog keyword found (as a substring) in the lowercased text. -/
def keywordScore (lowered : String) (p : FeverPattern) : Nat :=
  p.keywords.foldl (fun s k => if strIn k lowered then s + 1 else s) 0

/-- `+2` per catalog symptom phrase found in the lowercased text
(symptoms are weighted double). -/
def symptomScore (lowered : String) (p : FeverPattern) : Nat :=
  p.symptoms.foldl (fun s k => if strIn k lowered then s + 2 else s) 0

/-- The per-disease temperature bonus.  The Python guard is `if temperature:`,
which is false both for `None` and for a reading of `0.0` (float truthiness);
the `t = 0` test reflects that. -/
def tempBonus (disease : String) (temperature : Option ℚ) : Nat :=
  match temperature with
  | none => 0
  | some t =>
    if t = 0 then 0
    else if disease = "dengue" then (if 103 < t then 1 else 0)
    else if disease = "malaria" then (if 100 < t ∧ t < 104 then 1 else 0)
    else if disease = "typhoid" then (if 102 < t then 1 else 0)
    else 0

/-- Accumulated score of one pattern: keyword matches + weighted symptom
matches + temperature bonus. -/
def diseaseScore (symptoms : String) (temperature : Option ℚ) (p : FeverPattern) : Nat :=
  keywordScore (lowerStr symptoms) p + symptomScore (lowerStr symptoms) p + tempBonus p.name temperature

/-- The `scores` dict: patterns whose accumulated score is positive, in
catalog order. -/
def scoredPatterns (symptoms : String) (temperature : Option ℚ) : List (FeverPattern × Nat) :=
  (FEVER_PATTERNS.map (fun p => (p, diseaseScore symptoms temperature p))).filter
    (fun x => 0 < x.2)

/-- Python's `max(scores, key=...)`: the first entry attaining the maximal
score (a later entry replaces the current best only when strictly greater). -/
def pickMax : List (FeverPattern × Nat) → Option (FeverPattern × Nat)
  | [] => none
  | x :: xs =>
    match pickMax xs with
    | none => some x
    | some y => if x.2 < y.2 then some y else some x

/-- Python's `round(q, 2)` for the values reachable here (no half-to-even tie
is reachable, so round-half-up agrees with the float computation). -/
def round2 (q : ℚ) : ℚ := (⌊q * 100 + 1/2⌋ : ℚ) / 100

/-- Result shape of `identify_fever_type`. -/
structure DiseaseAnalysis where
  likely_type : String
  confidence : ℚ
  info : FeverPattern
  all_scores : List (String × Nat)
deriving Repr, DecidableEq

/-- `identify_fever_type(symptoms, temperature)`: score every catalog pattern,
take the first maximal positive scorer, normalise its score by the size of its
keyword and symptom sets; fall back to `viral` at confidence `0.3` when no
pattern scores above zero. -/
def identify_fever_type (symptoms : String) (temperature : Option ℚ := none) : DiseaseAnalysis :=
  match pickMax (scoredPatterns symptoms temperature) with
  | none => { likely_type := "viral", confidence := round2 (3/10), info := viralPattern, all_scores := [] }
  | some w =>
    { likely_type := w.1.name
      confidence := round2 (min ((w.2 : ℚ) / ((w.1.keywords.length + w.1.symptoms.length : ℕ) : ℚ)) 1)
      info := w.1
      all_scores := (scoredPatterns symptoms temperature).map (fun x => (x.1.name, x.2)) }

/-- `get_disease_recommendations(disease_type)`: the catalog lookup plus the
severity-dependent advice line. -/
def get_disease_recommendations (disease_type : String) : List String :=
  match FEVER_PATTERNS.find? (fun p => p.name = disease_type) with
  | none => []
  | some pattern =>
    ["Likely condition: " ++ upperStr disease_type,
     "Typical duration: " ++ pattern.duration,
     "Alert: " ++ pattern.alert] ++
    (if pattern.severity = "high" then ["⚠️ Seek medical attention promptly"]
     else if pattern.severity = "medium" then ["Monitor symptoms closely"]
     else ["Continue supportive care at home"])

/-! ## Data model (`app/models.py` is not under `src/`; modelled from the spec) -/

/-- Modelled from the spec: `TriageLevel` of `app/models.py` — enumerated
severity `emergency`, `urgent`, `routine`, `follow_up`; the exact label set is
preserved since it is surfaced to callers and persisted. -/
inductive TriageLevel where
  | emergency
  | urgent
  | routine
  | follow_up
deriving Repr, DecidableEq

/-- The persisted string label of a triage level (Python enum `.value`). -/
def TriageLevel.value : TriageLevel → String
  | .emergency => "emergency"
  | .urgent => "urgent"
  | .routine => "routine"
  | .follow_up => "follow_up"

/-- Modelled from the spec: `Message` of `app/models.py` — role, content and
an optional timestamp. -/
structure Message where
  role : String
  content : String
  timestamp : Option String := none
deriving Repr, DecidableEq

/-- Modelled from the spec: `TriageResult` of `app/models.py`. -/
structure TriageResult where
  triage_level : TriageLevel
  escalate : Bool
  summary : String
  recommended_next_steps : List String
  red_flag_detected : Bool
  red_flag_symptom : Option String := none
  next_question : Option String := none
deriving Repr, DecidableEq

/-- Modelled from the spec: the structured symptom selection of
`app/models.py` — a symptom list and an `emergency_detected` flag. -/
structure SymptomData where
  symptoms : List String
  emergency_detected : Bool
deriving Repr, DecidableEq

/-- Modelled from the spec: `ConversationRequest` of `app/models.py`. -/
structure ConversationRequest where
  session_id : String
  message : String
  conversation_history : List Message := []
  symptom_data : Option SymptomData := none
  llm_provider : Option String := none
deriving Repr, DecidableEq

/-- Modelled from the spec: `ConversationResponse` of `app/models.py`. -/
structure ConversationResponse where
  session_id : String
  message : String
  triage_result : TriageResult
  conversation_complete : Bool
deriving Repr, DecidableEq

/-! ## Red-flag detector (`app/red_flags.py` is not under `src/`; modelled
from the spec) -/

/-- Modelled from the spec: the fixed, curated list of emergency phrases of
`app/red_flags.py` (the spec names these five examples). -/
def RED_FLAG_PHRASES : List String :=
  ["difficulty breathing", "chest pain", "unconscious", "seizure", "blue lips"]

/-- Modelled from the spec: `check_red_flags(text)` of `app/red_flags.py` —
case-insensitive substring matching against the fixed phrase list, returning
the first matching phrase or none; pure, no failure modes. -/
def check_red_flags (text : String) : Option String :=
  RED_FLAG_PHRASES.find? (fun p => strIn p (lowerStr text))

/-- Modelled from the spec: `get_red_flag_response(flag)` of
`app/red_flags.py` — the fixed emergency instruction reply naming the matched
phrase. -/
def get_red_flag_response (flag : String) : String :=
  "EMERGENCY: " ++ flag ++ " detected. Call emergency services immediately and go to the nearest emergency room."

/-! ## Oracle collaborator (`app/llm_service.py` is not under `src/`;
modelled from the spec) -/

/-- Modelled from the spec: the language-generation oracle collaborator of
`app/llm_service.py` — `assess_triage(history, message)` returns a judgment
object and `generate_response(messages, history)` returns reply text; both are
black boxes, so the model quantifies over them. -/
structure Oracle where
  assess_triage : List (String × String) → String → TriageResult
  generate_response : List Message → List (String × String) → String

/-- Modelled from the spec: the normalisation performed by the triage state
machine of `app/llm_service.py` on the oracle judgment — if the oracle's own
assessment flags a red flag condition, that forces `triage_level = emergency`
(and, by the data-model invariant, `escalate = true`). -/
def normalize_assessment (r : TriageResult) : TriageResult :=
  if r.red_flag_detected then
    { r with triage_level := .emergency, escalate := true }
  else r

/-! ## Triage orchestration (`main.py`, `triage`) -/

/-- Python string-truthiness `a or b` on optional strings: the left value
wins unless it is absent or empty. -/
def pyOr (a b : Option String) : Option String :=
  match a with
  | some s => if s.isEmpty then b else some s
  | none => b

/-- Python string-truthiness `a or d` with a string default. -/
def pyStrOr (a : Option String) (d : String) : String :=
  match a with
  | some s => if s.isEmpty then d else s
  | none => d

/-- `main.py` lines 82-91: enhance the message with structured symptom data.
When symptoms are selected, the symptom-list form overwrites the
emergency-marker form (the second `if` rebuilds from `request.message`). -/
def enhanceMessage (req : ConversationRequest) : String :=
  match req.symptom_data with
  | none => req.message
  | some sd =>
    let e1 := if sd.emergency_detected then "EMERGENCY SYMPTOMS DETECTED: " ++ req.message else req.message
    if !sd.symptoms.isEmpty then
      req.message ++ "\n\nSelected symptoms: " ++ String.intercalate ", " sd.symptoms
    else e1

/-- `main.py` lines 93-99: the red-flag value — checker on the raw message,
`or` checker on the enhanced message, `or` the fixed marker string when the
structured symptom data flags an emergency. -/
def computeRedFlag (req : ConversationRequest) : Option String :=
  match req.symptom_data with
  | some sd =>
    if sd.emergency_detected then
      pyOr (pyOr (check_red_flags req.message) (check_red_flags (enhanceMessage req)))
        (some "Emergency symptoms selected via symptom selector")
    else pyOr (check_red_flags req.message) (check_red_flags (enhanceMessage req))
  | none => pyOr (check_red_flags req.message) (check_red_flags (enhanceMessage req))

/-- Effects the endpoint performs, in order: oracle calls and the
persistence call (`save_conversation`). -/
inductive Effect where
  | oracleAssess
  | oracleGenerate
  | save (session_id : String) (messages : List Message)
      (triage_level : Option String) (summary : Option String) (red_flag : Option String)
deriving Repr, DecidableEq

/-- Normalisation applied to history entries before persisting them
(`main.py` lines 102-129 / 213-239): a missing timestamp defaults to the
current time. -/
def normMsgDict (now : String) (m : Message) : Message :=
  { m with timestamp := some (m.timestamp.getD now) }

/-- The persisted transcript: normalised history plus the latest user message
and the assistant reply, both stamped with the current time. -/
def savedMessages (now : String) (req : ConversationRequest) (respMsg : String) : List Message :=
  req.conversation_history.map (normMsgDict now) ++
    [{ role := "user", content := req.message, timestamp := some now },
     { role := "assistant", content := respMsg, timestamp := some now }]

/-- `main.py` lines 100-159: the red-flag short-circuit branch — persist the
transcript, then return the fixed emergency result; no oracle call is made. -/
def redFlagPath (now : String) (req : ConversationRequest) (rf : String) :
    ConversationResponse × List Effect :=
  ({ session_id := req.session_id
     message := get_red_flag_response rf
     triage_result :=
       { triage_level := .emergency
         escalate := true
         summary := "Red flag symptom detected: " ++ rf
         recommended_next_steps :=
           ["Call emergency services immediately",
            "Go to the nearest emergency room",
            "Do not delay seeking medical attention"]
         red_flag_detected := true
         red_flag_symptom := some rf
         next_question := none }
     conversation_complete := true },
   [Effect.save req.session_id (savedMessages now req (get_red_flag_response rf))
      (some "emergency") none (some rf)])

/-- The `{confidence*100:.0f}` formatting of `main.py` line 198.  Every
reachable confidence is an integer number of hundredths, so `confidence*100`
is an exact integer and no float-formatting tie arises. -/
def confidencePercent (c : ℚ) : String := toString (⌊c * 100 + 1/2⌋.toNat)

/-- `main.py` lines 192-198: merge disease-specific recommendations into the
triage result when the analysis confidence exceeds `0.3`. -/
def mergeDisease (da : DiseaseAnalysis) (tr : TriageResult) : TriageResult :=
  if 3/10 < da.confidence then
    if !(get_disease_recommendations da.likely_type).isEmpty then
      { tr with
        recommended_next_steps := get_disease_recommendations da.likely_type ++ tr.recommended_next_steps
        summary := tr.summary ++ " (Possible " ++ upperStr da.likely_type ++ " - " ++
          confidencePercent da.confidence ++ "% confidence)" }
    else tr
  else tr

/-- `main.py` lines 162-180: the conversation history rebuilt as `Message`
objects (role and content only) with the latest user message appended. -/
def oracleMessages (req : ConversationRequest) : List Message :=
  req.conversation_history.map (fun m => { role := m.role, content := m.content : Message }) ++
    [{ role := "user", content := req.message : Message }]

/-- `main.py` lines 183-186: the role/content pairs handed to the oracle. -/
def historyPairs (req : ConversationRequest) : List (String × String) :=
  (oracleMessages req).map (fun m => (m.role, m.content))

/-- `main.py` line 188: use the enhanced message for assessment exactly when
structured symptom data is present. -/
def triageMessageOf (req : ConversationRequest) : String :=
  if req.symptom_data.isSome then enhanceMessage req else req.message

/-- `main.py` lines 189-198: the oracle assessment, normalised, with
disease-specific recommendations merged in. -/
def assessedResult (o : Oracle) (req : ConversationRequest) : TriageResult :=
  mergeDisease (identify_fever_type (triageMessageOf req))
    (normalize_assessment (o.assess_triage (historyPairs req) (triageMessageOf req)))

/-- `main.py` lines 205-208: the generated reply with the follow-up question
(if any) appended after a blank line. -/
def respText (o : Oracle) (req : ConversationRequest) : String :=
  match (assessedResult o req).next_question with
  | some q => o.generate_response (oracleMessages req) (historyPairs req) ++ "\n\n" ++ q
  | none => o.generate_response (oracleMessages req) (historyPairs req)

/-- `main.py` lines 160-259: the oracle-assessment branch. -/
def normalPath (o : Oracle) (now : String) (req : ConversationRequest) :
    ConversationResponse × List Effect :=
  if (assessedResult o req).red_flag_detected then
    ({ session_id := req.session_id
       message := get_red_flag_response (pyStrOr (assessedResult o req).red_flag_symptom "red flag symptom")
       triage_result := assessedResult o req
       conversation_complete := true },
     [Effect.oracleAssess,
      Effect.save req.session_id
        (savedMessages now req
          (get_red_flag_response (pyStrOr (assessedResult o req).red_flag_symptom "red flag symptom")))
        (some (assessedResult o req).triage_level.value)
        (some (assessedResult o req).summary)
        (assessedResult o req).red_flag_symptom])
  else
    ({ session_id := req.session_id
       message := respText o req
       triage_result := assessedResult o req
       conversation_complete := (assessedResult o req).next_question.isNone },
     [Effect.oracleAssess, Effect.oracleGenerate,
      Effect.save req.session_id (savedMessages now req (respText o req))
        (some (assessedResult o req).triage_level.value)
        (some (assessedResult o req).summary)
        (assessedResult o req).red_flag_symptom])

/-- The `/api/triage` endpoint (`main.py` lines 69-259): red-flag
short-circuit when the computed red flag is truthy, otherwise the
oracle-assessment path.  Returns the response and the ordered effect trace. -/
def triage (o : Oracle) (now : String) (req : ConversationRequest) :
    ConversationResponse × List Effect :=
  match computeRedFlag req with
  | some rf => if rf.isEmpty then normalPath o now req else redFlagPath now req rf
  | none => normalPath o now req

/-! ## Persistence (`database.py`) -/

/-- The `conversations` table row (`database.py`, `ConversationSession`).
Timestamps are abstract ticks. -/
structure StoredConversation where
  session_id : String
  messages : List Message
  triage_level : Option String
  summary : Option String
  red_flag_detected : Option String
  created_at : Nat
  updated_at : Nat
deriving Repr, DecidableEq

/-- The store: a key-value map from session id to row (primary key
`session_id`). -/
def Database : Type := String → Option StoredConversation

/-- `save_conversation` (`database.py` lines 64-86): look the session up by
id; overwrite its content fields when present, insert a fresh row
otherwise. -/
def save_conversation (db : Database) (now : Nat) (session_id : String)
    (messages : List Message) (triage_level : Option String)
    (summary : Option String) (red_flag : Option String) : Database :=
  fun k =>
    if k = session_id then
      some (match db session_id with
        | some s =>
          { s with
            messages := messages
            triage_level := triage_level
            summary := summary
            red_flag_detected := red_flag
            updated_at := now }
        | none =>
          { session_id := session_id
            messages := messages
            triage_level := triage_level
            summary := summary
            red_flag_detected := red_flag
            created_at := now
            updated_at := now })
    else db k

/-- `get_conversation` (`database.py` lines 89-91). -/
def get_conversation (db : Database) (session_id : String) : Option StoredConversation :=
  db session_id

/-- The content fields of a stored row — everything except the timestamps. -/
def StoredConversation.content (s : StoredConversation) :
    List Message × Option String × Option String × Option String :=
  (s.messages, s.triage_level, s.summary, s.red_flag_detected)

/-! ## Summary endpoint (`main.py`, `get_summary`) -/

/-- Python's `TriageLevel(label)` enum constructor: the inverse of
`TriageLevel.value`, failing (`ValueError`) on any other string. -/
def parseTriageLevel : String → Option TriageLevel
  | "emergency" => some .emergency
  | "urgent" => some .urgent
  | "routine" => some .routine
  | "follow_up" => some .follow_up
  | _ => none

/-- The fixed recommended-steps list of `main.py` lines 286-291. -/
def SUMMARY_STEPS : List String :=
  ["Monitor your symptoms",
   "Stay hydrated",
   "Get plenty of rest",
   "Consult a healthcare provider if symptoms persist"]

/-- Modelled from the spec: `SummaryResponse` of `app/models.py`. -/
structure SummaryResponse where
  session_id : String
  summary : String
  triage_level : TriageLevel
  recommended_next_steps : List String
  conversation_count : Nat
deriving Repr, DecidableEq

/-- The `/api/summary/{session_id}` endpoint (`main.py` lines 275-299).
A missing session is a not-found error; a stored level that is unset (or
empty, by Python truthiness) reads as `follow_up`; an unparsable stored level
propagates Python's `ValueError`. -/
def get_summary (db : Database) (session_id : String) : Except String SummaryResponse :=
  match get_conversation db session_id with
  | none => .error "Conversation not found"
  | some conversation =>
    match (match conversation.triage_level with
           | none => some TriageLevel.follow_up
           | some s => if s.isEmpty then some TriageLevel.follow_up else parseTriageLevel s) with
    | none => .error "invalid stored triage level"
    | some triage_level =>
      .ok { session_id := session_id
            summary := pyStrOr conversation.summary "Fever-related symptoms discussed"
            triage_level := triage_level
            recommended_next_steps := SUMMARY_STEPS
            conversation_count := conversation.messages.length }

/-! ## Helper lemmas -/

theorem pyOr_eq_some {a b : Option String} {s : String} (h : pyOr a b = some s) :
    a = some s ∨ b = some s := by
  unfold pyOr at h
  cases a with
  | none => exact Or.inr h
  | some t =>
    by_cases ht : t.isEmpty
    · simp only [ht, if_true] at h
      exact Or.inr h
    · simp only [ht, if_false] at h
      exact Or.inl h

theorem check_red_flags_mem {t s : String} (h : check_red_flags t = some s) :
    s ∈ RED_FLAG_PHRASES :=
  List.mem_of_find?_eq_some h

theorem check_red_flags_not_empty {t s : String} (h : check_red_flags t = some s) :
    s.isEmpty = false := by
  have hm := check_red_flags_mem h
  fin_cases hm <;> rfl

theorem computeRedFlag_not_empty {req : ConversationRequest} {s : String}
    (h : computeRedFlag req = some s) : s.isEmpty = false := by
  unfold computeRedFlag at h
  have fromText :
      ∀ u : String,
        pyOr (check_red_flags req.message) (check_red_flags (enhanceMessage req)) = some u →
        u.isEmpty = false := by
    intro u hu
    rcases pyOr_eq_some hu with h1 | h1
    · exact check_red_flags_not_empty h1
    · exact check_red_flags_not_empty h1
  cases hsd : req.symptom_data with
  | none =>
    simp only [hsd] at h
    exact fromText s h
  | some sd =>
    simp only [hsd] at h
    by_cases he : sd.emergency_detected
    · simp only [he, if_true] at h
      rcases pyOr_eq_some h with h1 | h1
      · exact fromText s h1
      · cases h1
        rfl
    · simp only [he, if_false] at h
      exact fromText s h

theorem triage_eq_redFlagPath {req : ConversationRequest} {s : String}
    (o : Oracle) (now : String) (h : computeRedFlag req = some s) :
    triage o now req = redFlagPath now req s := by
  unfold triage
  rw [h]
  simp [computeRedFlag_not_empty h]

theorem triage_eq_normalPath {req : ConversationRequest}
    (o : Oracle) (now : String) (h : computeRedFlag req = none) :
    triage o now req = normalPath o now req := by
  unfold triage
  rw [h]

theorem mergeDisease_preserves (da : DiseaseAnalysis) (tr : TriageResult) :
    (mergeDisease da tr).triage_level = tr.triage_level ∧
    (mergeDisease da tr).escalate = tr.escalate ∧
    (mergeDisease da tr).red_flag_detected = tr.red_flag_detected ∧
    (mergeDisease da tr).red_flag_symptom = tr.red_flag_symptom ∧
    (mergeDisease da tr).next_question = tr.next_question := by
  unfold mergeDisease
  split
  · split
    · exact ⟨rfl, rfl, rfl, rfl, rfl⟩
    · exact ⟨rfl, rfl, rfl, rfl, rfl⟩
  · exact ⟨rfl, rfl, rfl, rfl, rfl⟩

theorem normalize_assessment_red_flag (r : TriageResult) :
    (normalize_assessment r).red_flag_detected = r.red_flag_detected := by
  unfold normalize_assessment
  split <;> rfl

theorem normalize_assessment_steps (r : TriageResult) :
    (normalize_assessment r).recommended_next_steps = r.recommended_next_steps := by
  unfold normalize_assessment
  split <;> rfl

theorem normalize_assessment_of_red_flag {r : TriageResult} (h : r.red_flag_detected = true) :
    (normalize_assessment r).triage_level = .emergency ∧
    (normalize_assessment r).escalate = true := by
  unfold normalize_assessment
  rw [h]
  exact ⟨rfl, rfl⟩

theorem normalPath_triage_result (o : Oracle) (now : String) (req : ConversationRequest) :
    (normalPath o now req).1.triage_result = assessedResult o req := by
  unfold normalPath
  split <;> rfl

theorem normalPath_complete (o : Oracle) (now : String) (req : ConversationRequest) :
    (normalPath o now req).1.conversation_complete =
      ((assessedResult o req).red_flag_detected || (assessedResult o req).next_question.isNone) := by
  unfold normalPath
  by_cases h : (assessedResult o req).red_flag_detected <;> simp [h]

theorem pickMax_mem {l : List (FeverPattern × Nat)} {x : FeverPattern × Nat} :
    pickMax l = some x → x ∈ l := by
  induction l with
  | nil => intro h; cases h
  | cons a l ih =>
    intro h
    rw [pickMax] at h
    cases hl : pickMax l with
    | none =>
      rw [hl] at h
      injection h with h
      subst h
      exact List.mem_cons_self _ _
    | some y =>
      rw [hl] at h
      dsimp only at h
      by_cases hy : a.2 < y.2
      · rw [if_pos hy] at h
        injection h with h
        subst h
        exact List.mem_cons_of_mem _ (ih hl)
      · rw [if_neg hy] at h
        injection h with h
        subst h
        exact List.mem_cons_self _ _

theorem pickMax_eq_none {l : List (FeverPattern × Nat)} :
    pickMax l = none ↔ l = [] := by
  cases l with
  | nil => simp [pickMax]
  | cons a l =>
    simp only [pickMax]
    cases pickMax l with
    | none => simp
    | some y =>
      by_cases hy : a.2 < y.2 <;> simp [hy]

theorem round2_nonneg {q : ℚ} (h : 0 ≤ q) : 0 ≤ round2 q := by
  unfold round2
  have h1 : (0 : ℤ) ≤ ⌊q * 100 + 1/2⌋ := by
    rw [Int.le_floor]
    push_cast
    linarith
  have h2 : (0 : ℚ) ≤ (⌊q * 100 + 1/2⌋ : ℚ) := by exact_mod_cast h1
  positivity

theorem round2_le_one {q : ℚ} (h : q ≤ 1) : round2 q ≤ 1 := by
  unfold round2
  have h1 : ⌊q * 100 + 1/2⌋ < 101 := by
    rw [Int.floor_lt]
    push_cast
    linarith
  have h2 : (⌊q * 100 + 1/2⌋ : ℚ) ≤ 100 := by
    have : ⌊q * 100 + 1/2⌋ ≤ 100 := by omega
    exact_mod_cast this
  linarith

theorem round2_three_tenths : round2 (3/10) = 3/10 := by
  have h : ⌊((3:ℚ)/10 * 100 + 1/2)⌋ = 30 := by norm_num [Int.floor_eq_iff]
  rw [round2, h]
  norm_num

theorem mergeDisease_of_le {da : DiseaseAnalysis} (tr : TriageResult)
    (h : da.confidence ≤ 3/10) : mergeDisease da tr = tr := by
  unfold mergeDisease
  rw [if_neg (not_lt.mpr h)]

theorem mergeDisease_of_lt {da : DiseaseAnalysis} (tr : TriageResult)
    (h : 3/10 < da.confidence)
    (hne : (get_disease_recommendations da.likely_type).isEmpty = false) :
    mergeDisease da tr =
      { tr with
        recommended_next_steps := get_disease_recommendations da.likely_type ++ tr.recommended_next_steps
        summary := tr.summary ++ " (Possible " ++ upperStr da.likely_type ++ " - " ++
          confidencePercent da.confidence ++ "% confidence)" } := by
  unfold mergeDisease
  rw [if_pos h, hne]
  rfl

theorem likely_type_mem_catalog (s : String) (t : Option ℚ) :
    ∃ p ∈ FEVER_PATTERNS, (identify_fever_type s t).likely_type = p.name := by
  unfold identify_fever_type
  cases h : pickMax (scoredPatterns s t) with
  | none =>
    exact ⟨viralPattern, by simp [FEVER_PATTERNS], rfl⟩
  | some w =>
    refine ⟨w.1, ?_, rfl⟩
    have hw := pickMax_mem h
    unfold scoredPatterns at hw
    have hw2 := List.mem_of_mem_filter hw
    rcases List.mem_map.mp hw2 with ⟨p, hp, hpe⟩
    cases hpe
    exact hp

theorem recommendations_nonempty (s : String) (t : Option ℚ) :
    (get_disease_recommendations (identify_fever_type s t).likely_type).isEmpty = false := by
  rcases likely_type_mem_catalog s t with ⟨p, hp, he⟩
  rw [he]
  fin_cases hp <;> rfl

theorem round2_eval {q : ℚ} (n : ℤ) (h1 : (n:ℚ) ≤ q * 100 + 1/2) (h2 : q * 100 + 1/2 < n + 1) :
    round2 q = (n : ℚ) / 100 := by
  rw [round2, Int.floor_eq_iff.mpr ⟨h1, h2⟩]

theorem pyOr_some_right (a : Option String) (m : String) :
    ∃ s, pyOr a (some m) = some s := by
  cases a with
  | none => exact ⟨m, rfl⟩
  | some t =>
    by_cases ht : t.isEmpty
    · exact ⟨m, by simp [pyOr, ht]⟩
    · exact ⟨t, by simp [pyOr, ht]⟩

theorem computeRedFlag_isSome_of_check {req : ConversationRequest}
    (h : check_red_flags req.message ≠ none ∨ check_red_flags (enhanceMessage req) ≠ none) :
    ∃ s, computeRedFlag req = some s := by
  have hft : ∃ s, pyOr (check_red_flags req.message) (check_red_flags (enhanceMessage req)) = some s := by
    cases hc : check_red_flags req.message with
    | some u =>
      exact ⟨u, by simp [pyOr, check_red_flags_not_empty hc]⟩
    | none =>
      cases hd : check_red_flags (enhanceMessage req) with
      | some v => exact ⟨v, by simp [pyOr]⟩
      | none =>
        rcases h with h | h
        · exact absurd hc h
        · exact absurd hd h
  obtain ⟨s, hs⟩ := hft
  have hne : s.isEmpty = false := by
    rcases pyOr_eq_some hs with h1 | h1 <;> exact check_red_flags_not_empty h1
  refine ⟨s, ?_⟩
  unfold computeRedFlag
  cases hsd : req.symptom_data with
  | none => exact hs
  | some sd =>
    dsimp only
    by_cases he : sd.emergency_detected = true
    · rw [he, if_pos rfl, hs]
      simp [pyOr, hne]
    · rw [if_neg he]
      exact hs

theorem computeRedFlag_isSome_of_selector {req : ConversationRequest} {sd : SymptomData}
    (hsd : req.symptom_data = some sd) (he : sd.emergency_detected = true) :
    ∃ s, computeRedFlag req = some s := by
  unfold computeRedFlag
  rw [hsd]
  dsimp only
  rw [he, if_pos rfl]
  exact pyOr_some_right _ _

/-! ## Concrete fixtures used by witnesses and counterexamples -/

/-- A concrete benign oracle judgment: no red flag, no follow-up question. -/
def benignAssessment : TriageResult :=
  { triage_level := .routine
    escalate := false
    summary := "routine assessment"
    recommended_next_steps := ["Rest and monitor temperature"]
    red_flag_detected := false
    red_flag_symptom := none
    next_question := none }

/-- A concrete oracle returning the benign judgment. -/
def benignOracle : Oracle :=
  { assess_triage := fun _ _ => benignAssessment
    generate_response := fun _ _ => "You likely have a mild illness." }

/-- A concrete oracle judgment that flags a red flag while still carrying a
follow-up question and a non-emergency level — allowed by the oracle
contract, which leaves the fields independent. -/
def flagAssessment : TriageResult :=
  { triage_level := .urgent
    escalate := false
    summary := "assessment"
    recommended_next_steps := ["Rest"]
    red_flag_detected := true
    red_flag_symptom := some "severe dizziness"
    next_question := some "Do you have a fever?" }

/-- A concrete oracle returning the flagging judgment. -/
def flagOracle : Oracle :=
  { assess_triage := fun _ _ => flagAssessment
    generate_response := fun _ _ => "Take care." }

/-- A benign request: no red-flag phrase, no structured symptom data. -/
def reqHello : ConversationRequest := { session_id := "s1", message := "hello" }

theorem identify_hello :
    identify_fever_type "hello" none =
      { likely_type := "viral", confidence := round2 (3/10), info := viralPattern, all_scores := [] } := rfl

theorem assessed_benign_hello :
    assessedResult benignOracle reqHello = benignAssessment := by
  unfold assessedResult
  rw [show identify_fever_type (triageMessageOf reqHello) =
      { likely_type := "viral", confidence := round2 (3/10), info := viralPattern, all_scores := [] } from rfl]
  rw [mergeDisease_of_le _ (by simpa using le_of_eq round2_three_tenths)]
  rfl

theorem assessed_flag_hello :
    assessedResult flagOracle reqHello =
      { flagAssessment with triage_level := .emergency, escalate := true } := by
  unfold assessedResult
  rw [show identify_fever_type (triageMessageOf reqHello) =
      { likely_type := "viral", confidence := round2 (3/10), info := viralPattern, all_scores := [] } from rfl]
  rw [mergeDisease_of_le _ (by simpa using le_of_eq round2_three_tenths)]
  rfl

/-! ## Claims -/

/-- **C1.** For every TriageResult produced by the triage operation (both the
red-flag short-circuit path and the oracle-assessment path), if
`red_flag_detected` is true then `triage_level` equals `emergency` and
`escalate` is true; in particular, when the oracle's returned assessment has
`red_flag_detected` true, the result returned to the caller still has
`triage_level = emergency`. -/
theorem C1_red_flag_invariant (o : Oracle) (now : String) (req : ConversationRequest)
    (h : (triage o now req).1.triage_result.red_flag_detected = true) :
    (triage o now req).1.triage_result.triage_level = TriageLevel.emergency ∧
    (triage o now req).1.triage_result.escalate = true := by
  cases hc : computeRedFlag req with
  | some s =>
    rw [triage_eq_redFlagPath o now hc]
    exact ⟨rfl, rfl⟩
  | none =>
    rw [triage_eq_normalPath o now hc] at h ⊢
    rw [normalPath_triage_result] at h ⊢
    unfold assessedResult at h ⊢
    have hp := mergeDisease_preserves (identify_fever_type (triageMessageOf req))
      (normalize_assessment (o.assess_triage (historyPairs req) (triageMessageOf req)))
    rw [hp.2.2.1, normalize_assessment_red_flag] at h
    rw [hp.1, hp.2.1]
    exact normalize_assessment_of_red_flag h

/-- Witness for C1: a concrete oracle whose assessment flags a red flag with a
non-emergency level; the endpoint still returns emergency with escalation. -/
theorem C1_red_flag_invariant_witness :
    (triage flagOracle "t0" reqHello).1.triage_result.red_flag_detected = true ∧
    (triage flagOracle "t0" reqHello).1.triage_result.triage_level = TriageLevel.emergency ∧
    (triage flagOracle "t0" reqHello).1.triage_result.escalate = true := by
  have h : (triage flagOracle "t0" reqHello).1.triage_result.red_flag_detected = true := by
    rw [triage_eq_normalPath _ _ (by decide), normalPath_triage_result, assessed_flag_hello]
    rfl
  exact ⟨h, C1_red_flag_invariant flagOracle "t0" reqHello h⟩

/-- **C2.** For every request whose raw or enhanced message contains a
catalogued red-flag phrase, the triage operation short-circuits: it returns an
emergency TriageResult with `escalate = true`, the fixed emergency steps, and
`conversation_complete = true`; neither oracle operation is invoked, and the
only effect is persisting the transcript before returning. -/
theorem C2_short_circuit (o : Oracle) (now : String) (req : ConversationRequest)
    (h : check_red_flags req.message ≠ none ∨ check_red_flags (enhanceMessage req) ≠ none) :
    computeRedFlag req = some ((computeRedFlag req).getD "") ∧
    (triage o now req).1.triage_result.triage_level = TriageLevel.emergency ∧
    (triage o now req).1.triage_result.escalate = true ∧
    (triage o now req).1.triage_result.recommended_next_steps =
      ["Call emergency services immediately",
       "Go to the nearest emergency room",
       "Do not delay seeking medical attention"] ∧
    (triage o now req).1.conversation_complete = true ∧
    Effect.oracleAssess ∉ (triage o now req).2 ∧
    Effect.oracleGenerate ∉ (triage o now req).2 ∧
    (triage o now req).2 =
      [Effect.save req.session_id
        (savedMessages now req (get_red_flag_response ((computeRedFlag req).getD "")))
        (some "emergency") none (some ((computeRedFlag req).getD ""))] := by
  obtain ⟨s, hs⟩ := computeRedFlag_isSome_of_check h
  rw [hs, triage_eq_redFlagPath o now hs]
  refine ⟨rfl, rfl, rfl, rfl, rfl, ?_, ?_, rfl⟩
  · simp [redFlagPath]
  · simp [redFlagPath]

/-- A request carrying the spec scenario message for the red-flag
short-circuit. -/
def reqBreath : ConversationRequest :=
  { session_id := "s1", message := "I am having difficulty breathing" }

/-- Witness for C2: the spec scenario "difficulty breathing" short-circuits to
the fixed emergency result with the transcript as the only effect. -/
theorem C2_short_circuit_witness :
    (triage benignOracle "t0" reqBreath).1.triage_result.triage_level = TriageLevel.emergency ∧
    (triage benignOracle "t0" reqBreath).1.triage_result.escalate = true ∧
    (triage benignOracle "t0" reqBreath).1.triage_result.recommended_next_steps =
      ["Call emergency services immediately",
       "Go to the nearest emergency room",
       "Do not delay seeking medical attention"] ∧
    (triage benignOracle "t0" reqBreath).1.conversation_complete = true ∧
    Effect.oracleAssess ∉ (triage benignOracle "t0" reqBreath).2 ∧
    Effect.oracleGenerate ∉ (triage benignOracle "t0" reqBreath).2 := by
  have h := C2_short_circuit benignOracle "t0" reqBreath (Or.inl (by decide))
  exact ⟨h.2.1, h.2.2.1, h.2.2.2.1, h.2.2.2.2.1, h.2.2.2.2.2.1, h.2.2.2.2.2.2.1⟩

/-- An arbitrary request whose structured symptom input flags an emergency:
the message text, history and provider are unconstrained. -/
def selectorRequest (sid msg : String) (hist : List Message) (syms : List String)
    (prov : Option String) : ConversationRequest :=
  { session_id := sid
    message := msg
    conversation_history := hist
    symptom_data := some { symptoms := syms, emergency_detected := true }
    llm_provider := prov }

/-- **C3.** For every request whose structured symptom input has
`emergency_detected = true`, regardless of the message text, the triage
operation returns `triage_level = emergency` with `escalate = true`, exactly
as a textual red-flag match does (same fixed steps, completed dialogue). -/
theorem C3_structured_emergency (o : Oracle) (now sid msg : String)
    (hist : List Message) (syms : List String) (prov : Option String) :
    (triage o now (selectorRequest sid msg hist syms prov)).1.triage_result.triage_level = TriageLevel.emergency ∧
    (triage o now (selectorRequest sid msg hist syms prov)).1.triage_result.escalate = true ∧
    (triage o now (selectorRequest sid msg hist syms prov)).1.triage_result.red_flag_detected = true ∧
    (triage o now (selectorRequest sid msg hist syms prov)).1.triage_result.recommended_next_steps =
      ["Call emergency services immediately",
       "Go to the nearest emergency room",
       "Do not delay seeking medical attention"] ∧
    (triage o now (selectorRequest sid msg hist syms prov)).1.conversation_complete = true := by
  obtain ⟨s, hs⟩ := @computeRedFlag_isSome_of_selector
    (selectorRequest sid msg hist syms prov)
    { symptoms := syms, emergency_detected := true } rfl rfl
  rw [triage_eq_redFlagPath o now hs]
  exact ⟨rfl, rfl, rfl, rfl, rfl⟩

/-- The message of the dengue scenario in the spec. -/
def c4msg : String := "I have a rash, joint pain, and pain behind my eyes, temperature 104°F"

/-- The dengue-scenario request: message only, no structured symptom data. -/
def reqC4 : ConversationRequest := { session_id := "s1", message := c4msg }

theorem identify_c4msg :
    identify_fever_type c4msg none =
      { likely_type := "dengue"
        confidence := round2 (min (((2:ℕ):ℚ) / ((12:ℕ):ℚ)) 1)
        info := denguePattern
        all_scores := [("dengue", 2)] } := rfl

theorem c4_confidence : (identify_fever_type c4msg none).confidence = 17/100 := by
  rw [identify_c4msg]
  show round2 (min (((2:ℕ):ℚ) / ((12:ℕ):ℚ)) 1) = 17/100
  rw [show min (((2:ℕ):ℚ) / ((12:ℕ):ℚ)) 1 = 1/6 by norm_num [min_def]]
  rw [round2_eval 17 (by norm_num) (by norm_num)]
  norm_num

theorem c4_result_unmerged (o : Oracle) :
    (triage o "t0" reqC4).1.triage_result =
      normalize_assessment (o.assess_triage (historyPairs reqC4) c4msg) := by
  rw [triage_eq_normalPath o "t0" (show computeRedFlag reqC4 = none from rfl),
    normalPath_triage_result]
  unfold assessedResult
  rw [show triageMessageOf reqC4 = c4msg from rfl]
  exact mergeDisease_of_le _ (by rw [c4_confidence]; norm_num)

/-- **C4, counterexample.**  On the spec's dengue scenario message the scorer
does select `dengue`, but — because `main.py` line 192 calls the scorer
without a temperature and only two dengue terms match — the confidence is
`0.17`, not greater than `0.3`, so the dengue alert text and the
prompt-attention line are *not* merged into the final recommended steps. -/
theorem C4_dengue_scenario_counterexample :
    (identify_fever_type c4msg none).likely_type = "dengue" ∧
    (identify_fever_type c4msg none).confidence = 17/100 ∧
    ¬(3/10 < (identify_fever_type c4msg none).confidence) ∧
    ("Alert: " ++ denguePattern.alert) ∉
      (triage benignOracle "t0" reqC4).1.triage_result.recommended_next_steps ∧
    "⚠️ Seek medical attention promptly" ∉
      (triage benignOracle "t0" reqC4).1.triage_result.recommended_next_steps := by
  have hsteps : (triage benignOracle "t0" reqC4).1.triage_result.recommended_next_steps =
      ["Rest and monitor temperature"] := by
    rw [c4_result_unmerged benignOracle]
    rfl
  refine ⟨rfl, c4_confidence, ?_, ?_, ?_⟩
  · rw [c4_confidence]
    norm_num
  · rw [hsteps]
    decide
  · rw [hsteps]
    decide

/-- **C4, amended.**  For the dengue scenario message, the scorer selects
`dengue` with confidence exactly `0.17`; since that does not exceed the `0.3`
threshold, the triage result's recommended steps are exactly the (normalised)
oracle assessment's steps, with no dengue text prepended. -/
theorem C4_dengue_scenario_amended (o : Oracle) :
    (identify_fever_type c4msg none).likely_type = "dengue" ∧
    (identify_fever_type c4msg none).confidence = 17/100 ∧
    (triage o "t0" reqC4).1.triage_result.recommended_next_steps =
      (normalize_assessment (o.assess_triage (historyPairs reqC4) c4msg)).recommended_next_steps := by
  exact ⟨rfl, c4_confidence, by rw [c4_result_unmerged o]⟩

/-- **C5.** In the non-emergency (oracle-assessment) path, disease-specific
recommendations are prepended to the result's recommended steps and the
summary annotated exactly when the disease analysis confidence is strictly
greater than `0.3`; at or below `0.3` the analysis is discarded and the
(normalised) oracle result is returned unchanged. -/
theorem C5_merge_iff_threshold (o : Oracle) (now : String) (req : ConversationRequest) :
    (3/10 < (identify_fever_type (triageMessageOf req)).confidence →
      (normalPath o now req).1.triage_result =
        { normalize_assessment (o.assess_triage (historyPairs req) (triageMessageOf req)) with
          recommended_next_steps :=
            get_disease_recommendations (identify_fever_type (triageMessageOf req)).likely_type ++
              (normalize_assessment (o.assess_triage (historyPairs req) (triageMessageOf req))).recommended_next_steps
          summary :=
            (normalize_assessment (o.assess_triage (historyPairs req) (triageMessageOf req))).summary ++
              " (Possible " ++ upperStr (identify_fever_type (triageMessageOf req)).likely_type ++ " - " ++
              confidencePercent (identify_fever_type (triageMessageOf req)).confidence ++ "% confidence)" } ∧
      (get_disease_recommendations (identify_fever_type (triageMessageOf req)).likely_type).isEmpty = false) ∧
    ((identify_fever_type (triageMessageOf req)).confidence ≤ 3/10 →
      (normalPath o now req).1.triage_result =
        normalize_assessment (o.assess_triage (historyPairs req) (triageMessageOf req))) := by
  constructor
  · intro h
    refine ⟨?_, recommendations_nonempty _ _⟩
    rw [normalPath_triage_result]
    unfold assessedResult
    exact mergeDisease_of_lt _ h (recommendations_nonempty _ _)
  · intro h
    rw [normalPath_triage_result]
    unfold assessedResult
    exact mergeDisease_of_le _ h

/-- A request whose text matches four malaria keywords (confidence `0.4`). -/
def reqMalaria : ConversationRequest :=
  { session_id := "s1", message := "chills and sweating and shivering with rigor" }

theorem identify_malaria :
    identify_fever_type "chills and sweating and shivering with rigor" none =
      { likely_type := "malaria"
        confidence := round2 (min (((4:ℕ):ℚ) / ((10:ℕ):ℚ)) 1)
        info := malariaPattern
        all_scores := [("malaria", 4), ("flu", 2)] } := rfl

theorem malaria_confidence :
    (identify_fever_type "chills and sweating and shivering with rigor" none).confidence = 2/5 := by
  rw [identify_malaria]
  show round2 (min (((4:ℕ):ℚ) / ((10:ℕ):ℚ)) 1) = 2/5
  rw [show min (((4:ℕ):ℚ) / ((10:ℕ):ℚ)) 1 = 2/5 by norm_num [min_def]]
  rw [round2_eval 40 (by norm_num) (by norm_num)]
  norm_num

/-- Witness for C5: above threshold (`0.4` on a malaria text) the
recommendations are prepended; at threshold (`0.3` default on unmatched text)
the oracle result is returned unchanged. -/
theorem C5_merge_iff_threshold_witness :
    (normalPath benignOracle "t0" reqMalaria).1.triage_result.recommended_next_steps =
      get_disease_recommendations "malaria" ++ ["Rest and monitor temperature"] ∧
    (normalPath benignOracle "t0" reqHello).1.triage_result = benignAssessment := by
  constructor
  · have h := (C5_merge_iff_threshold benignOracle "t0" reqMalaria).1
      (by rw [show triageMessageOf reqMalaria = "chills and sweating and shivering with rigor" from rfl,
              malaria_confidence]
          norm_num)
    rw [h.1]
    rfl
  · have h := (C5_merge_iff_threshold benignOracle "t0" reqHello).2
      (by rw [show triageMessageOf reqHello = "hello" from rfl,
              show (identify_fever_type "hello" none).confidence = round2 (3/10) from rfl,
              round2_three_tenths])
    rw [h]
    rfl

/-- **C6.** For every symptoms text and optional temperature,
`identify_fever_type` returns a confidence in `[0, 1]`; no pattern scores
above zero exactly when every catalog disease scores zero, and in that case
the result is exactly `viral` at confidence `0.3`; when a winner exists, the
confidence is `min(score / (|keywords| + |symptoms|), 1)` rounded to two
decimals and the winner's name is returned. -/
theorem C6_confidence_formula (s : String) (t : Option ℚ) :
    (0 ≤ (identify_fever_type s t).confidence ∧ (identify_fever_type s t).confidence ≤ 1) ∧
    (pickMax (scoredPatterns s t) = none ↔ ∀ p ∈ FEVER_PATTERNS, diseaseScore s t p = 0) ∧
    (pickMax (scoredPatterns s t) = none →
      (identify_fever_type s t).likely_type = "viral" ∧
      (identify_fever_type s t).confidence = 3/10) ∧
    (∀ w, pickMax (scoredPatterns s t) = some w →
      (identify_fever_type s t).likely_type = w.1.name ∧
      (identify_fever_type s t).confidence =
        round2 (min ((w.2 : ℚ) / ((w.1.keywords.length + w.1.symptoms.length : ℕ) : ℚ)) 1)) := by
  refine ⟨?_, ?_, ?_, ?_⟩
  · unfold identify_fever_type
    cases h : pickMax (scoredPatterns s t) with
    | none =>
      dsimp only
      rw [round2_three_tenths]
      norm_num
    | some w =>
      dsimp only
      constructor
      · exact round2_nonneg (le_min (div_nonneg (Nat.cast_nonneg _) (Nat.cast_nonneg _)) zero_le_one)
      · exact round2_le_one (min_le_right _ _)
  · rw [pickMax_eq_none]
    unfold scoredPatterns
    rw [List.filter_eq_nil_iff]
    constructor
    · intro h p hp
      have := h (p, diseaseScore s t p) (List.mem_map_of_mem _ hp)
      simpa using this
    · intro h x hx
      rcases List.mem_map.mp hx with ⟨p, hp, rfl⟩
      simpa using h p hp
  · intro h
    unfold identify_fever_type
    rw [h]
    exact ⟨rfl, round2_three_tenths⟩
  · intro w h
    unfold identify_fever_type
    rw [h]
    exact ⟨rfl, rfl⟩

/-- Witness for C6: a positive-scoring text (`rigor` → malaria, score 1 of 10)
and an unmatched text (default `viral` at `0.3`). -/
theorem C6_confidence_formula_witness :
    (identify_fever_type "rigor" none).likely_type = "malaria" ∧
    (identify_fever_type "rigor" none).confidence =
      round2 (min (((1:ℕ):ℚ) / ((10:ℕ):ℚ)) 1) ∧
    (identify_fever_type "zzz" none).likely_type = "viral" ∧
    (identify_fever_type "zzz" none).confidence = 3/10 ∧
    0 ≤ (identify_fever_type "rigor" none).confidence ∧
    (identify_fever_type "rigor" none).confidence ≤ 1 := by
  have h1 := (C6_confidence_formula "rigor" none).2.2.2 (malariaPattern, 1) rfl
  have h2 := (C6_confidence_formula "zzz" none).2.2.1 rfl
  have h3 := (C6_confidence_formula "rigor" none).1
  exact ⟨h1.1, h1.2, h2.1, h2.2, h3.1, h3.2⟩

/-- **C7.** For every symptoms text and every supplied temperature reading,
the scorer adds exactly `+1` to dengue when the temperature exceeds 103 °F,
`+1` to malaria when it lies strictly between 100 and 104 °F, and `+1` to
typhoid when it exceeds 102 °F; the other diseases never get a temperature
bonus, and with no reading supplied no disease gets one. -/
theorem C7_temperature_bonuses (sym : String) (t : ℚ) :
    diseaseScore sym (some t) denguePattern =
      diseaseScore sym none denguePattern + (if 103 < t then 1 else 0) ∧
    diseaseScore sym (some t) malariaPattern =
      diseaseScore sym none malariaPattern + (if 100 < t ∧ t < 104 then 1 else 0) ∧
    diseaseScore sym (some t) typhoidPattern =
      diseaseScore sym none typhoidPattern + (if 102 < t then 1 else 0) ∧
    diseaseScore sym (some t) viralPattern = diseaseScore sym none viralPattern ∧
    diseaseScore sym (some t) fluPattern = diseaseScore sym none fluPattern ∧
    diseaseScore sym (some t) covidPattern = diseaseScore sym none covidPattern ∧
    (∀ p ∈ FEVER_PATTERNS, tempBonus p.name none = 0) := by
  by_cases h0 : t = 0
  · subst h0
    refine ⟨?_, ?_, ?_, rfl, rfl, rfl, fun p _ => rfl⟩ <;>
      simp [diseaseScore, tempBonus]
  · refine ⟨?_, ?_, ?_, ?_, ?_, ?_, fun p _ => rfl⟩ <;>
      simp [diseaseScore, tempBonus, h0, denguePattern, malariaPattern, typhoidPattern,
        viralPattern, fluPattern, covidPattern]

/-- **C8, counterexample.**  When the oracle assessment flags a red flag while
still carrying a follow-up question — allowed by the oracle contract —
`main.py` line 203 sets `conversation_complete = True` without clearing
`next_question`, so completeness does not coincide with the absence of a
question. -/
theorem C8_complete_counterexample :
    (triage flagOracle "t0" reqHello).1.conversation_complete = true ∧
    (triage flagOracle "t0" reqHello).1.triage_result.next_question = some "Do you have a fever?" ∧
    ¬((triage flagOracle "t0" reqHello).1.conversation_complete =
        (triage flagOracle "t0" reqHello).1.triage_result.next_question.isNone) := by
  have hres : (triage flagOracle "t0" reqHello).1.triage_result =
      { flagAssessment with triage_level := .emergency, escalate := true } := by
    rw [triage_eq_normalPath _ _ (by decide), normalPath_triage_result, assessed_flag_hello]
  have hcomp : (triage flagOracle "t0" reqHello).1.conversation_complete = true := by
    rw [triage_eq_normalPath _ _ (by decide), normalPath_complete, assessed_flag_hello]
    rfl
  refine ⟨hcomp, ?_, ?_⟩
  · rw [hres]
    rfl
  · rw [hres, hcomp]
    decide

/-- **C8, amended.**  The `conversation_complete` flag returned to the caller
is true exactly when the triage result's `next_question` is absent *or* its
`red_flag_detected` is true; in every turn whose result carries no red flag,
completeness coincides with the absence of a follow-up question. -/
theorem C8_complete_amended (o : Oracle) (now : String) (req : ConversationRequest) :
    (triage o now req).1.conversation_complete =
      ((triage o now req).1.triage_result.next_question.isNone ||
        (triage o now req).1.triage_result.red_flag_detected) := by
  cases hc : computeRedFlag req with
  | some s =>
    rw [triage_eq_redFlagPath o now hc]
    rfl
  | none =>
    rw [triage_eq_normalPath o now hc, normalPath_complete, normalPath_triage_result]
    exact Bool.or_comm _ _

/-- **C9.** `save_conversation` is an idempotent upsert: saving the same
transcript, level, summary and red flag twice leaves every stored record's
content (messages, triage level, summary, red flag) equal to saving it
once. -/
theorem C9_save_idempotent (db : Database) (t1 t2 : Nat) (sid : String)
    (msgs : List Message) (lvl summ rf : Option String) (k : String) :
    ((save_conversation (save_conversation db t1 sid msgs lvl summ rf) t2 sid msgs lvl summ rf) k).map
        StoredConversation.content =
      ((save_conversation db t1 sid msgs lvl summ rf) k).map StoredConversation.content := by
  unfold save_conversation
  by_cases hk : k = sid
  · rw [if_pos hk, if_pos hk, if_pos rfl]
    cases db sid <;> rfl
  · rw [if_neg hk, if_neg hk]

/-- **C10.** For every stored session, the summary endpoint returns the fixed
four recommended steps independent of the stored conversation's content, and
when the stored triage level is unset it reports `follow_up` (with the default
summary text when none is stored). -/
theorem C10_summary_fixed_steps (db : Database) (sid : String) (conv : StoredConversation)
    (r : SummaryResponse) (h1 : db sid = some conv) (h2 : get_summary db sid = .ok r) :
    r.recommended_next_steps = SUMMARY_STEPS ∧
    (conv.triage_level = none →
      r.triage_level = TriageLevel.follow_up ∧
      r = { session_id := sid
            summary := pyStrOr conv.summary "Fever-related symptoms discussed"
            triage_level := TriageLevel.follow_up
            recommended_next_steps := SUMMARY_STEPS
            conversation_count := conv.messages.length }) := by
  unfold get_summary get_conversation at h2
  rw [h1] at h2
  dsimp only at h2
  constructor
  · cases hl : conv.triage_level with
    | none =>
      rw [hl] at h2
      cases h2
      rfl
    | some lvs =>
      rw [hl] at h2
      dsimp only at h2
      by_cases he : lvs.isEmpty
      · rw [if_pos he] at h2
        cases h2
        rfl
      · rw [if_neg he] at h2
        cases hp : parseTriageLevel lvs with
        | none =>
          rw [hp] at h2
          cases h2
        | some lv =>
          rw [hp] at h2
          cases h2
          rfl
  · intro hl
    rw [hl] at h2
    cases h2
    exact ⟨rfl, rfl⟩

/-- A concrete stored row with an unset triage level. -/
def convNoLevel : StoredConversation :=
  { session_id := "s1"
    messages := [{ role := "user", content := "hello", timestamp := some "t0" }]
    triage_level := none
    summary := none
    red_flag_detected := none
    created_at := 0
    updated_at := 0 }

/-- A single-row store holding `convNoLevel` under key `"s1"`. -/
def dbNoLevel : Database := fun k => if k = "s1" then some convNoLevel else none

/-- Witness for C10 at a concrete store: the fixed steps come back and the
unset level reads as `follow_up`. -/
theorem C10_summary_fixed_steps_witness :
    ({ session_id := "s1"
       summary := "Fever-related symptoms discussed"
       triage_level := TriageLevel.follow_up
       recommended_next_steps := SUMMARY_STEPS
       conversation_count := 1 } : SummaryResponse).recommended_next_steps = SUMMARY_STEPS ∧
    ({ session_id := "s1"
       summary := "Fever-related symptoms discussed"
       triage_level := TriageLevel.follow_up
       recommended_next_steps := SUMMARY_STEPS
       conversation_count := 1 } : SummaryResponse).triage_level = TriageLevel.follow_up := by
  have h := C10_summary_fixed_steps dbNoLevel "s1" convNoLevel
    { session_id := "s1"
      summary := "Fever-related symptoms discussed"
      triage_level := TriageLevel.follow_up
      recommended_next_steps := SUMMARY_STEPS
      conversation_count := 1 } rfl rfl
  exact ⟨h.1, (h.2 rfl).1⟩

end HealthGuide
